import Mathlib

/-!
Verification of the rta-cma camera-management backend core:
the role/location access-control evaluator (`app/core/permissions.py`,
`app/models/user.py`) and the generic filter/search/sort/paginate
query-building layer (`app/core/filters.py`, `app/core/pagination.py`,
`app/services/camera_service.py`, `app/api/camera.py`).

Records are modelled as Lean structures, SQLAlchemy queries as Lean lists
of records, and each query-building helper as the corresponding list
transformation.  Python `Optional[T]` values are `Option T`; Python
truthiness of optional ints and strings (where `None`, `0` and `""` are
all falsy) is modelled explicitly.
-/

/-- Python truthiness of an `Optional[int]` value: `None` and `0` are falsy. -/
def optNatTruthy : Option Nat → Bool
  | none => false
  | some v => v != 0

/-- Python truthiness of an `Optional[str]` value: `None` and the empty string are falsy. -/
def optStrTruthy : Option String → Bool
  | none => false
  | some s => s != ""

/-- `app/models/user.py` `UserRole`: the three roles. -/
inductive UserRole
  | ADMINISTRATOR
  | OPERATOR
  | VIEWER
  deriving DecidableEq

/-- `app/models/user.py` `User`: the fields relevant to authorization
(role and the nullable `assigned_location_id` foreign key). -/
structure User where
  role : UserRole
  assigned_location_id : Option Nat := none
  deriving DecidableEq

/-- `User.is_administrator`: `self.role == UserRole.ADMINISTRATOR`. -/
def User.is_administrator (u : User) : Bool :=
  decide (u.role = UserRole.ADMINISTRATOR)

/-- `User.is_operator`: `self.role == UserRole.OPERATOR`. -/
def User.is_operator (u : User) : Bool :=
  decide (u.role = UserRole.OPERATOR)

/-- `User.is_viewer`: `self.role == UserRole.VIEWER`. -/
def User.is_viewer (u : User) : Bool :=
  decide (u.role = UserRole.VIEWER)

/-- `User.can_create`: `self.role in [ADMINISTRATOR, OPERATOR]`. -/
def User.can_create (u : User) : Bool :=
  decide (u.role = UserRole.ADMINISTRATOR ∨ u.role = UserRole.OPERATOR)

/-- `User.can_edit`: `self.role in [ADMINISTRATOR, OPERATOR]`. -/
def User.can_edit (u : User) : Bool :=
  decide (u.role = UserRole.ADMINISTRATOR ∨ u.role = UserRole.OPERATOR)

/-- `User.can_delete`: `self.role == UserRole.ADMINISTRATOR`. -/
def User.can_delete (u : User) : Bool :=
  decide (u.role = UserRole.ADMINISTRATOR)

/-- `User.can_view`: always `True`. -/
def User.can_view (_u : User) : Bool :=
  true

/-- `User.can_manage_users`: `self.role == UserRole.ADMINISTRATOR`. -/
def User.can_manage_users (u : User) : Bool :=
  decide (u.role = UserRole.ADMINISTRATOR)

namespace PermissionChecker

/-- `PermissionChecker.can_access_camera` (`permissions.py` lines 173-187):
administrators allowed; operators location-checked when both
`assigned_location_id` and `camera_location_id` are truthy, else allowed;
otherwise the viewer check. -/
def can_access_camera (user : User) (camera_location_id : Option Nat := none) : Bool :=
  if user.is_administrator then true
  else if user.is_operator then
    if optNatTruthy user.assigned_location_id && optNatTruthy camera_location_id then
      user.assigned_location_id == camera_location_id
    else true
  else user.is_viewer

/-- `PermissionChecker.can_modify_camera` (`permissions.py` lines 189-202):
like `can_access_camera` for administrators and operators, but viewers
cannot modify. -/
def can_modify_camera (user : User) (camera_location_id : Option Nat := none) : Bool :=
  if user.is_administrator then true
  else if user.is_operator then
    if optNatTruthy user.assigned_location_id && optNatTruthy camera_location_id then
      user.assigned_location_id == camera_location_id
    else true
  else false

/-- `PermissionChecker.can_delete_camera` (`permissions.py` lines 204-208):
only administrators can delete; the location argument is ignored. -/
def can_delete_camera (user : User) (_camera_location_id : Option Nat := none) : Bool :=
  user.is_administrator

/-- `PermissionChecker.filter_locations_by_access` (`permissions.py` lines 210-221):
administrators see every candidate id; an operator whose
`assigned_location_id` is truthy sees `[assigned_location_id]` when it is
among the candidates and `[]` otherwise; everyone else sees every
candidate.  (The `none` branch of the inner match is unreachable because
truthiness implies the value is present.) -/
def filter_locations_by_access (user : User) (location_ids : List Nat) : List Nat :=
  if user.is_administrator then location_ids
  else if user.is_operator && optNatTruthy user.assigned_location_id then
    match user.assigned_location_id with
    | some a => if a ∈ location_ids then [a] else []
    | none => []
  else location_ids

end PermissionChecker

/-- `app/core/pagination.py` `SortOrder`. -/
inductive SortOrder
  | asc
  | desc
  deriving DecidableEq

/-- `app/core/pagination.py` `PaginationParams`: the two validated fields. -/
structure PaginationParams where
  skip : Int
  limit : Int
  deriving DecidableEq

/-- Pydantic validation errors raised when a `PaginationParams` field
constraint is violated. -/
inductive ValidationError
  | skip_lt_zero
  | limit_lt_one
  | limit_gt_thousand
  deriving DecidableEq

/-- Validation performed by pydantic when a `PaginationParams` is built
(`pagination.py` lines 12-15): `skip` carries `ge=0` and `limit` carries
`ge=1, le=1000`; any violation raises a `ValidationError` instead of
producing the model. -/
def PaginationParams.validate (skip limit : Int) : Except ValidationError PaginationParams :=
  if skip < 0 then Except.error ValidationError.skip_lt_zero
  else if limit < 1 then Except.error ValidationError.limit_lt_one
  else if limit > 1000 then Except.error ValidationError.limit_gt_thousand
  else Except.ok { skip := skip, limit := limit }

/-- `app/core/pagination.py` `PaginatedResponse`. -/
structure PaginatedResponse (DataType : Type) where
  items : List DataType
  total : Nat
  skip : Int
  limit : Int
  has_more : Bool

/-- `PaginatedResponse.create` (`pagination.py` lines 39-47): packs the
page and sets `has_more = skip + len(items) < total`. -/
def PaginatedResponse.create (items : List DataType) (total : Nat) (skip limit : Int) :
    PaginatedResponse DataType :=
  { items := items
    total := total
    skip := skip
    limit := limit
    has_more := decide (skip + (items.length : Int) < (total : Int)) }

/-- Case-insensitive substring test on character lists: the matcher behind
SQL `ilike` with the term wrapped in percent wildcards. -/
def sublistContains (needle hay : List Char) : Bool :=
  match hay with
  | [] => needle.isEmpty
  | _ :: t => needle.isPrefixOf hay || sublistContains needle t

/-- `column.ilike(f"%term%")` on a non-null column value: case-insensitive
substring match (modelled for terms without further SQL wildcard
characters, which no caller in the repository introduces). -/
def ilikeMatch (field_value term : String) : Bool :=
  sublistContains (term.data.map Char.toLower) (field_value.data.map Char.toLower)

/-- `column.ilike(...)` on a nullable column: a SQL NULL never matches. -/
def optIlike : Option String → String → Bool
  | none, _ => false
  | some s, t => ilikeMatch s t

/-- `apply_pagination` (`filters.py` lines 8-10): `query.offset(skip).limit(limit)`
as executed by the backing store for nonnegative bounds: drop the first
`skip` rows, then take at most `limit`.  No bounds validation happens
here.  On the repository's default PostgreSQL backend a negative OFFSET
or LIMIT raises a database error when the query executes, so the value of
this model at negative arguments (clamped by `Int.toNat`) is a don't-care
collapsing that error path; no theorem relies on it. -/
def apply_pagination (query : List α) (skip limit : Int) : List α :=
  (query.drop skip.toNat).take limit.toNat

/-- `apply_search` (`filters.py` lines 13-23): falsy (`None` or empty)
search terms and empty field lists are a no-op; otherwise rows are kept
when any searchable field `ilike`-matches the term (the `or_` of the
per-field conditions). -/
def apply_search (query : List α) (search_term : Option String)
    (search_fields : List (α → Option String)) : List α :=
  match search_term with
  | none => query
  | some t =>
    if t == "" || search_fields.isEmpty then query
    else query.filter fun r => search_fields.any fun f => optIlike (f r) t

/-- `apply_date_range_filter` (`filters.py` lines 26-41): inclusive lower
and upper bounds on a timestamp field, each optional. -/
def apply_date_range_filter (query : List α) (date_field : α → Nat)
    (start_date end_date : Option Nat) : List α :=
  let filters : List (α → Bool) :=
    (match start_date with
     | some s => [fun r => decide (s ≤ date_field r)]
     | none => []) ++
    (match end_date with
     | some e => [fun r => decide (date_field r ≤ e)]
     | none => [])
  if filters.isEmpty then query else query.filter fun r => filters.all fun f => f r

/-- The value of one sortable column, as compared by the store's ORDER BY. -/
inductive ColumnValue
  | intVal (n : Int)
  | strVal (s : Option String)
  deriving DecidableEq

/-- Comparison used for ORDER BY: ints by numeric order, strings by
lexicographic order with NULLs first. -/
def ColumnValue.le : ColumnValue → ColumnValue → Bool
  | ColumnValue.intVal a, ColumnValue.intVal b => decide (a ≤ b)
  | ColumnValue.strVal none, ColumnValue.strVal _ => true
  | ColumnValue.strVal (some _), ColumnValue.strVal none => false
  | ColumnValue.strVal (some a), ColumnValue.strVal (some b) => decide (a ≤ b)
  | ColumnValue.intVal _, ColumnValue.strVal _ => true
  | ColumnValue.strVal _, ColumnValue.intVal _ => false

/-- `apply_sorting` (`filters.py` lines 44-55): a falsy `sort_by` or one
absent from `allowed_sort_fields` is a no-op; otherwise the query is
ordered by the mapped column, descending or ascending. -/
def apply_sorting (query : List α) (sort_by : Option String) (sort_order : SortOrder)
    (allowed_sort_fields : List (String × (α → ColumnValue))) : List α :=
  match sort_by with
  | none => query
  | some s =>
    if s == "" then query
    else
      match allowed_sort_fields.lookup s with
      | none => query
      | some sort_field =>
        match sort_order with
        | SortOrder.desc => query.mergeSort fun a b => ColumnValue.le (sort_field b) (sort_field a)
        | SortOrder.asc => query.mergeSort fun a b => ColumnValue.le (sort_field a) (sort_field b)

/-- `apply_filter_by_field` (`filters.py` lines 58-62): a `None` value is
a no-op, a present value keeps rows whose field equals it. -/
def apply_filter_by_field [BEq β] (query : List α) (field : α → β) (value : Option β) : List α :=
  match value with
  | some v => query.filter fun r => field r == v
  | none => query

/-- `apply_status_filter` (`filters.py` lines 65-67): delegates to
`apply_filter_by_field`. -/
def apply_status_filter (query : List α) (status_field : α → String)
    (status : Option String) : List α :=
  apply_filter_by_field query status_field status

/-- `get_total_count` (`filters.py` lines 70-72): `query.count()`. -/
def get_total_count (query : List α) : Nat :=
  query.length

/-- `app/models/camera.py` `Camera`: one camera row.  Nullable columns are
`Option`-valued; `status` and `camera_status` are non-null with defaults. -/
structure Camera where
  id : Nat
  serial_no : String
  item_description : Option String := none
  model_no : Option String := none
  brand : Option String := none
  rta_tag : Option String := none
  camera_name : Option String := none
  ip_address : Option String := none
  mac_address : Option String := none
  firmware_version : Option String := none
  protocol : Option String := none
  sd_card : Bool := false
  sd_capacity : Option Nat := none
  status : String := "Inactive"
  camera_status : String := "Offline"
  details : Option String := none
  comments : Option String := none
  is_asset : Bool := true
  location_id : Option Nat := none
  nvr_id : Option Nat := none
  deriving DecidableEq

/-- The searchable camera columns passed to `apply_search` by
`get_cameras_with_filters` (`camera_service.py` lines 48-54):
`camera_name`, `serial_no`, `rta_tag`, `ip_address`, `model_no`. -/
def camera_search_fields : List (Camera → Option String) :=
  [fun c => c.camera_name,
   fun c => some c.serial_no,
   fun c => c.rta_tag,
   fun c => c.ip_address,
   fun c => c.model_no]

/-- The `allowed_sort_fields` dict built inside `get_cameras_with_filters`
(`camera_service.py` lines 65-74). -/
def camera_allowed_sort_fields : List (String × (Camera → ColumnValue)) :=
  [("id", fun c => ColumnValue.intVal (c.id : Int)),
   ("camera_name", fun c => ColumnValue.strVal c.camera_name),
   ("serial_no", fun c => ColumnValue.strVal (some c.serial_no)),
   ("status", fun c => ColumnValue.strVal (some c.status)),
   ("camera_status", fun c => ColumnValue.strVal (some c.camera_status)),
   ("brand", fun c => ColumnValue.strVal c.brand),
   ("ip_address", fun c => ColumnValue.strVal c.ip_address),
   ("rta_tag", fun c => ColumnValue.strVal c.rta_tag)]

/-- `get_cameras_with_filters` (`camera_service.py` lines 23-86), with the
database table as the base query.  Stage order follows the source: search
(guarded by `if search:`, so a falsy term skips the stage), the two status
filters, the three equality filters, sorting, then the total count taken
before pagination.  Equality filters on the nullable `location_id`,
`nvr_id` and `brand` columns compare at `Option` type against `some v`,
encoding that a SQL NULL column never equals a literal.
`include_relations` only controls eager loading of relations and does not
change the row set. -/
def get_cameras_with_filters (db : List Camera) (skip : Int := 0) (limit : Int := 100)
    (search : Option String := none) (status : Option String := none)
    (camera_status : Option String := none) (location_id : Option Nat := none)
    (nvr_id : Option Nat := none) (brand : Option String := none)
    (sort_by : Option String := none) (sort_order : SortOrder := SortOrder.asc)
    (_include_relations : Bool := false) : List Camera × Nat :=
  let query := db
  let query := if optStrTruthy search then apply_search query search camera_search_fields
               else query
  let query := apply_status_filter query (fun c => c.status) status
  let query := apply_status_filter query (fun c => c.camera_status) camera_status
  let query := apply_filter_by_field query (fun c => c.location_id) (location_id.map some)
  let query := apply_filter_by_field query (fun c => c.nvr_id) (nvr_id.map some)
  let query := apply_filter_by_field query (fun c => c.brand) (brand.map some)
  let query := apply_sorting query sort_by sort_order camera_allowed_sort_fields
  let total_count := get_total_count query
  let query := apply_pagination query skip limit
  (query, total_count)

/-- The `GET /cameras/` handler `api_get_cameras` (`api/camera.py` lines
28-77): runs `get_cameras_with_filters` and wraps the page in
`PaginatedResponse.create(items=cameras, total=total, skip=skip,
limit=limit)`. -/
def api_get_cameras (db : List Camera) (skip limit : Int)
    (search status camera_status : Option String) (location_id nvr_id : Option Nat)
    (brand : Option String) (sort_by : Option String) (sort_order : SortOrder) :
    PaginatedResponse Camera :=
  let r := get_cameras_with_filters db skip limit search status camera_status
    location_id nvr_id brand sort_by sort_order
  PaginatedResponse.create r.1 r.2 skip limit

/-- The row predicate of one `apply_search` stage: a falsy term or empty
field list keeps every row, otherwise a row is kept when any field
`ilike`-matches the term. -/
def searchPred {α : Type} (search_term : Option String)
    (search_fields : List (α → Option String)) (r : α) : Bool :=
  match search_term with
  | none => true
  | some t =>
    if t == "" || search_fields.isEmpty then true
    else search_fields.any fun f => optIlike (f r) t

/-- The row predicate of one `apply_filter_by_field` stage: a `None` value
keeps every row, a present value keeps rows whose field equals it. -/
def eqFilterPred {α β : Type} [BEq β] (field : α → β) (value : Option β) (r : α) : Bool :=
  match value with
  | none => true
  | some v => field r == v

/-- Declarative membership predicate for the camera listing: a camera
survives the search and equality filters of `get_cameras_with_filters`. -/
def cameraMatches (search status camera_status : Option String)
    (location_id nvr_id : Option Nat) (brand : Option String) (c : Camera) : Bool :=
  searchPred search camera_search_fields c &&
  eqFilterPred (fun x => x.status) status c &&
  eqFilterPred (fun x => x.camera_status) camera_status c &&
  eqFilterPred (fun x => x.location_id) (location_id.map some) c &&
  eqFilterPred (fun x => x.nvr_id) (nvr_id.map some) c &&
  eqFilterPred (fun x => x.brand) (brand.map some) c

/-- A concrete camera row used to instantiate closed statements. -/
def demoCamera : Camera :=
  { id := 1, serial_no := "SN-0001" }

/-! ## Claims about the access-control evaluator -/

/-- C1 counterexample: an operator assigned to location 5 asking to view a
camera at location 7 is denied by `can_access_camera`, contradicting the
spec row "operator | view | any | allow". -/
theorem C1_operator_view_counterexample :
    PermissionChecker.can_access_camera
      { role := UserRole.OPERATOR, assigned_location_id := some 5 } (some 7) = false := by
  decide

/-- C1 (amended): operator view access is location-scoped exactly like
create/edit: allowed when the operator has no assigned location or the
camera has no location, and when both (nonzero) ids are present it is
allowed iff they are equal. -/
theorem C1_operator_view_location_scoped (a r : Nat) (c : Option Nat)
    (ha : a ≠ 0) (hr : r ≠ 0) :
    PermissionChecker.can_access_camera
      { role := UserRole.OPERATOR, assigned_location_id := none } c = true ∧
    PermissionChecker.can_access_camera
      { role := UserRole.OPERATOR, assigned_location_id := some a } none = true ∧
    (PermissionChecker.can_access_camera
      { role := UserRole.OPERATOR, assigned_location_id := some a } (some r) = true ↔ a = r) := by
  refine ⟨?_, ?_, ?_⟩ <;>
    simp [PermissionChecker.can_access_camera, User.is_administrator, User.is_operator,
      User.is_viewer, optNatTruthy, ha, hr]

/-- C1 witness: instantiating the amended theorem at a = 5, r = 7. -/
theorem C1_operator_view_location_scoped_witness :
    PermissionChecker.can_access_camera
      { role := UserRole.OPERATOR, assigned_location_id := some 5 } none = true :=
  (C1_operator_view_location_scoped 5 7 none (by decide) (by decide)).2.1

/-- C2: operator create/edit (`can_modify_camera`): allowed with no
assigned location; allowed when the camera has no location; and with both
(nonzero) ids present, allowed iff they are equal. -/
theorem C2_operator_modify_rules (a r : Nat) (c : Option Nat)
    (ha : a ≠ 0) (hr : r ≠ 0) :
    PermissionChecker.can_modify_camera
      { role := UserRole.OPERATOR, assigned_location_id := none } c = true ∧
    PermissionChecker.can_modify_camera
      { role := UserRole.OPERATOR, assigned_location_id := some a } none = true ∧
    (PermissionChecker.can_modify_camera
      { role := UserRole.OPERATOR, assigned_location_id := some a } (some r) = true ↔ a = r) := by
  refine ⟨?_, ?_, ?_⟩ <;>
    simp [PermissionChecker.can_modify_camera, User.is_administrator, User.is_operator,
      optNatTruthy, ha, hr]

/-- C2 witness: instantiating the theorem at a = 5, r = 7. -/
theorem C2_operator_modify_rules_witness :
    PermissionChecker.can_modify_camera
      { role := UserRole.OPERATOR, assigned_location_id := some 5 } none = true :=
  (C2_operator_modify_rules 5 7 (some 3) (by decide) (by decide)).2.1

/-- C3: delete is administrator-only regardless of location, both in
`PermissionChecker.can_delete_camera` and in `User.can_delete`. -/
theorem C3_delete_admin_only (u : User) (loc : Option Nat) :
    (PermissionChecker.can_delete_camera u loc = true ↔ u.role = UserRole.ADMINISTRATOR) ∧
    (u.can_delete = true ↔ u.role = UserRole.ADMINISTRATOR) := by
  constructor <;> simp [PermissionChecker.can_delete_camera, User.can_delete,
    User.is_administrator]

/-- C4: `filter_locations_by_access` returns all candidates for
administrators, the singleton (or empty) narrowing for an operator with a
(nonzero) assigned location, all candidates for operators without one and
for viewers; and the spec scenario on [3, 5, 9] with assigned location 5. -/
theorem C4_filter_locations_by_access (ids : List Nat) (a : Nat) (la lv : Option Nat)
    (ha : a ≠ 0) :
    PermissionChecker.filter_locations_by_access
      { role := UserRole.ADMINISTRATOR, assigned_location_id := la } ids = ids ∧
    PermissionChecker.filter_locations_by_access
      { role := UserRole.OPERATOR, assigned_location_id := some a } ids =
      (if a ∈ ids then [a] else []) ∧
    PermissionChecker.filter_locations_by_access
      { role := UserRole.OPERATOR, assigned_location_id := none } ids = ids ∧
    PermissionChecker.filter_locations_by_access
      { role := UserRole.VIEWER, assigned_location_id := lv } ids = ids ∧
    PermissionChecker.filter_locations_by_access
      { role := UserRole.OPERATOR, assigned_location_id := some 5 } [3, 5, 9] = [5] := by
  refine ⟨?_, ?_, ?_, ?_, ?_⟩ <;>
    simp [PermissionChecker.filter_locations_by_access, User.is_administrator,
      User.is_operator, optNatTruthy, ha]

/-- C4 witness: the spec scenario, via the theorem at a = 5. -/
theorem C4_filter_locations_by_access_witness :
    PermissionChecker.filter_locations_by_access
      { role := UserRole.OPERATOR, assigned_location_id := some 5 } [3, 5, 9] = [5] :=
  (C4_filter_locations_by_access [3, 5, 9] 5 none none (by decide)).2.2.2.2

/-- C10: every id returned by `filter_locations_by_access` is one of the
candidate ids, for every principal and candidate list. -/
theorem C10_filter_locations_subset (u : User) (ids : List Nat) (x : Nat)
    (hx : x ∈ PermissionChecker.filter_locations_by_access u ids) : x ∈ ids := by
  unfold PermissionChecker.filter_locations_by_access at hx
  split at hx
  · exact hx
  · split at hx
    · cases h : u.assigned_location_id with
      | none => rw [h] at hx; simp at hx
      | some a =>
        rw [h] at hx
        by_cases hm : a ∈ ids
        · simp [hm] at hx; simpa [hx] using hm
        · simp [hm] at hx
    · exact hx

/-- C10 witness: the operator scenario, 5 is drawn from the candidates. -/
theorem C10_filter_locations_subset_witness : (5 : Nat) ∈ [3, 5] :=
  C10_filter_locations_subset
    { role := UserRole.OPERATOR, assigned_location_id := some 5 } [3, 5] 5 (by decide)

/-! ## Claims about the query-composition helpers -/

/-- C8: an equality filter with an absent value is the identity on the
query, for every query and field. -/
theorem C8_null_filter_identity {α β : Type} [BEq β] (q : List α) (field : α → β) :
    apply_filter_by_field q field (none : Option β) = q :=
  rfl

/-- C9: search with an empty-string term behaves exactly like an absent
term (both are the identity), and search over an empty field list is the
identity, for every query. -/
theorem C9_empty_search_identity {α : Type} (q : List α)
    (fields : List (α → Option String)) (t : Option String) :
    apply_search q (some ("")) fields = q ∧
    apply_search q none fields = q ∧
    apply_search q t [] = q := by
  refine ⟨by simp [apply_search], rfl, ?_⟩
  cases t with
  | none => rfl
  | some s => simp [apply_search]

/-- Any application of `apply_sorting` returns a permutation of its input:
either it is the identity or a `mergeSort` of the query. -/
theorem apply_sorting_perm {α : Type} (q : List α) (sb : Option String) (so : SortOrder)
    (m : List (String × (α → ColumnValue))) : (apply_sorting q sb so m).Perm q := by
  unfold apply_sorting
  cases sb with
  | none => exact List.Perm.refl q
  | some s =>
    by_cases hs : (s == "") = true
    · simp [hs]
    · simp only [hs, Bool.false_eq_true, if_false]
      cases hl : List.lookup s m with
      | none => simp [hl]
      | some f =>
        simp only [hl]
        cases so
        · exact List.mergeSort_perm q _
        · exact List.mergeSort_perm q _

/-- C7: an unknown (or absent) sort-field name makes `apply_sorting` the
identity, and for every sort-field name the sorted result is a
permutation of the unsorted query, so the result-set composition never
changes and no error is possible. -/
theorem C7_unknown_sort_field_safe {α : Type} (q : List α) (so : SortOrder)
    (m : List (String × (α → ColumnValue))) (s : String)
    (h : m.lookup s = none) :
    apply_sorting q (some s) so m = q ∧
    apply_sorting q none so m = q ∧
    ∀ sb, (apply_sorting q sb so m).Perm q := by
  refine ⟨?_, rfl, fun sb => apply_sorting_perm q sb so m⟩
  unfold apply_sorting
  by_cases hs : (s == "") = true
  · simp [hs]
  · simp [hs, h]

/-- C7 witness: sorting cameras by the unrecognized field name "bogus" is
the identity. -/
theorem C7_unknown_sort_field_safe_witness :
    apply_sorting [demoCamera] (some ("bogus")) SortOrder.asc camera_allowed_sort_fields
      = [demoCamera] :=
  (C7_unknown_sort_field_safe [demoCamera] SortOrder.asc camera_allowed_sort_fields
    ("bogus") (by rfl)).1

/-- C6 counterexample: the composer applies out-of-range limits instead
of rejecting them.  With `skip = 0, limit = 0` (below the documented
minimum 1) it silently returns an empty page with a normal total, and
with `skip = 0, limit = 2000` (above the documented maximum 1000) it
silently returns the full page: no validation or error path exists in
`apply_pagination` or `get_cameras_with_filters`. -/
theorem C6_composer_does_not_reject_counterexample :
    get_cameras_with_filters [demoCamera] 0 0 = ([], 1) ∧
    get_cameras_with_filters [demoCamera] 0 2000 = ([demoCamera], 1) := by
  constructor <;> rfl

/-- C6 (amended): the `[1,1000]` limit bound and the `skip ≥ 0` bound are
enforced by `PaginationParams` validation at the request boundary — a
`PaginationParams` is produced exactly when the bounds hold — while the
composer itself performs no bounds check: every nonnegative skip and
limit, in range or not, is silently applied. -/
theorem C6_bounds_checked_by_pagination_params (skip limit : Int) :
    ((∃ p, PaginationParams.validate skip limit = Except.ok p) ↔
      0 ≤ skip ∧ 1 ≤ limit ∧ limit ≤ 1000) ∧
    ∀ (db : List Camera) (sk lim : Nat), get_cameras_with_filters db (sk : Int) (lim : Int) =
      (apply_pagination db (sk : Int) (lim : Int), db.length) := by
  refine ⟨?_, fun db sk lim => rfl⟩
  unfold PaginationParams.validate
  split_ifs with h1 h2 h3 <;> simp <;> omega

/-- An absent search term keeps every row. -/
theorem searchPred_none {α : Type} (fs : List (α → Option String)) :
    searchPred (none : Option String) fs = fun _ => true :=
  rfl

/-- A falsy search term or an empty field list keeps every row. -/
theorem searchPred_guard {α : Type} (s : String) (fs : List (α → Option String))
    (h : (s == "" || fs.isEmpty) = true) :
    searchPred (some s) fs = fun _ => true := by
  funext r
  simp [searchPred, h]

/-- An active search term keeps the rows with a matching field. -/
theorem searchPred_active {α : Type} (s : String) (fs : List (α → Option String))
    (h : (s == "" || fs.isEmpty) = false) :
    searchPred (some s) fs = fun r => fs.any fun f => optIlike (f r) s := by
  funext r
  simp [searchPred, h]

/-- An absent equality-filter value keeps every row. -/
theorem eqFilterPred_none {α β : Type} [BEq β] (f : α → β) :
    eqFilterPred f (none : Option β) = fun _ => true :=
  rfl

/-- The search stage of the camera pipeline, including the service's
`if search:` truthiness guard, is a `filter` by `searchPred`. -/
theorem search_stage_eq_filter {α : Type} (q : List α) (t : Option String)
    (fs : List (α → Option String)) :
    (if optStrTruthy t then apply_search q t fs else q) = q.filter (searchPred t fs) := by
  cases t with
  | none => simp [optStrTruthy, searchPred_none]
  | some s =>
    cases hsb : (s == "") with
    | true =>
      rw [searchPred_guard s fs (by rw [hsb]; rfl)]
      simp [optStrTruthy, bne, hsb]
    | false =>
      cases heb : fs.isEmpty with
      | true =>
        rw [searchPred_guard s fs (by rw [hsb, heb]; rfl)]
        simp [optStrTruthy, bne, hsb, apply_search, heb]
      | false =>
        rw [searchPred_active s fs (by rw [hsb, heb]; rfl)]
        simp [optStrTruthy, bne, hsb, apply_search, heb]

/-- One equality-filter stage is a `filter` by `eqFilterPred`. -/
theorem apply_filter_by_field_eq_filter {α β : Type} [BEq β] (q : List α) (f : α → β)
    (v : Option β) : apply_filter_by_field q f v = q.filter (eqFilterPred f v) := by
  cases v with
  | none => simp [apply_filter_by_field, eqFilterPred_none]
  | some x => rfl

/-- C5: the total returned by `get_cameras_with_filters` counts exactly
the records surviving the search and equality filters, independent of
`skip`, `limit` and sorting; and the `has_more` flag of the paginated
response equals `skip + (length of the returned page) < total`. -/
theorem C5_total_and_has_more (db : List Camera) (skip limit : Int)
    (search status camera_status : Option String) (location_id nvr_id : Option Nat)
    (brand sort_by : Option String) (sort_order : SortOrder) :
    (get_cameras_with_filters db skip limit search status camera_status location_id
        nvr_id brand sort_by sort_order).2
      = db.countP (cameraMatches search status camera_status location_id nvr_id brand) ∧
    (api_get_cameras db skip limit search status camera_status location_id nvr_id brand
        sort_by sort_order).has_more
      = decide (skip +
          (((api_get_cameras db skip limit search status camera_status location_id nvr_id
            brand sort_by sort_order).items.length : Int)) <
          (((api_get_cameras db skip limit search status camera_status location_id nvr_id
            brand sort_by sort_order).total : Int))) := by
  constructor
  · simp only [get_cameras_with_filters, get_total_count]
    rw [(apply_sorting_perm _ sort_by sort_order camera_allowed_sort_fields).length_eq]
    simp only [apply_status_filter, apply_filter_by_field_eq_filter, search_stage_eq_filter,
      List.filter_filter, ← List.countP_eq_length_filter]
    apply congrArg (fun p => List.countP p db)
    funext c
    simp only [cameraMatches]
    ac_rfl
  · rfl
